import Mathlib

/-!
Shallow embedding of `src/bed_calc_4.py` (NHS vs Darwin bed cost calculator).
Monetary and derived quantities are modelled as exact rationals (`ℚ`); the
script's Python floats approximate real arithmetic.  Fallible operations
(the timeframe dictionary lookup, which raises `KeyError` on an unknown
label, and the ward-row lookup) are modelled with `Option`.
-/

namespace BedCalc

/-- One row of the static cost table `data` / `df` (lines 17-36 of the
source): care type, NHS capital cost per night, NHS maintenance cost per
night, and floor area per bed in square metres. -/
structure WardProfile where
  careType : String
  capitalCost : ℚ
  maintenanceCost : ℚ
  areaPerBed : ℚ
deriving DecidableEq, Repr, Inhabited

/-- The twelve fixed rows of the cost table (source lines 17-34). -/
def wardTable : List WardProfile :=
  [ ⟨"General Ward", 80.63, 12.20, 32⟩
  , ⟨"Surgical Ward", 278.29, 15.58, 40⟩
  , ⟨"Critical Care", 77.96, 5.48, 40⟩
  , ⟨"Maternity Ward", 54.55, 3.41, 32⟩
  , ⟨"Paediatrics", 61.82, 4.05, 35⟩
  , ⟨"Orthopaedics", 57.98, 3.62, 34⟩
  , ⟨"Oncology", 65.75, 4.38, 36⟩
  , ⟨"Cardiovascular", 65.75, 4.60, 36⟩
  , ⟨"ENT", 57.98, 3.93, 34⟩
  , ⟨"Neurology", 65.75, 4.38, 36⟩
  , ⟨"Psychiatric", 45.68, 2.74, 30⟩
  , ⟨"Specialised Ward", 63.94, 4.26, 35⟩ ]

/-- `get_timeframe_days` (source lines 56-57): dictionary lookup from a
timeframe label to a day count; the Python `KeyError` raised on any other
label is modelled as `none`. -/
def get_timeframe_days (label : String) : Option ℕ :=
  if label = "Daily" then some 1
  else if label = "5 Years" then some 1825
  else if label = "10 Years" then some 3650
  else if label = "15 Years" then some 5475
  else if label = "60 Years" then some 21900
  else none

/-- The five valid timeframe labels offered by the selectbox (source
line 46). -/
def timeframe_labels : List String :=
  ["Daily", "5 Years", "10 Years", "15 Years", "60 Years"]

/-- `calculate_effective_nights` (source lines 59-60):
`nights if tf_days == 1 else tf_days * (occ_rate / 100)`. -/
def calculate_effective_nights (nights occ_rate : ℚ) (tf_days : ℕ) : ℚ :=
  if tf_days = 1 then nights else (tf_days : ℚ) * (occ_rate / 100)

/-- The five values returned by `calculate_costs` (source line 68). -/
structure CostResult where
  nhs_night : ℚ
  total_nhs : ℚ
  total_darwin : ℚ
  savings : ℚ
  percent_savings : ℚ
deriving DecidableEq, Repr, Inhabited

/-- `calculate_costs` (source lines 62-68).  The Python guard
`if total_nhs else 0` is numeric truthiness: the ratio is taken exactly
when `total_nhs` is nonzero. -/
def calculate_costs (cap maint darwin beds nights : ℚ) : CostResult :=
  let nhs_night := cap + maint
  let total_nhs := nhs_night * beds * nights
  let total_darwin := darwin * beds * nights
  let savings := total_nhs - total_darwin
  let percent_savings := if total_nhs = 0 then 0 else savings / total_nhs * 100
  ⟨nhs_night, total_nhs, total_darwin, savings, percent_savings⟩

/-- The sidebar inputs (source lines 42-48). -/
structure Inputs where
  selected_ward : String
  num_beds : ℕ
  num_nights : ℕ
  occupancy_rate : ℕ
  timeframe : String
  darwin_cost_input : ℚ
  sqm_cost : ℕ
deriving DecidableEq, Repr, Inhabited

/-- The range constraints the sidebar widgets enforce (source lines 42-48):
a ward from the table, beds 1-100, nights 1-365, occupancy 50-100, one of
the five timeframe labels, Darwin cost 50-200, build cost 1500-4000. -/
def ValidInputs (i : Inputs) : Prop :=
  (∃ w ∈ wardTable, w.careType = i.selected_ward) ∧
  1 ≤ i.num_beds ∧ i.num_beds ≤ 100 ∧
  1 ≤ i.num_nights ∧ i.num_nights ≤ 365 ∧
  50 ≤ i.occupancy_rate ∧ i.occupancy_rate ≤ 100 ∧
  i.timeframe ∈ timeframe_labels ∧
  50 ≤ i.darwin_cost_input ∧ i.darwin_cost_input ≤ 200 ∧
  1500 ≤ i.sqm_cost ∧ i.sqm_cost ≤ 4000

instance (i : Inputs) : Decidable (ValidInputs i) := by
  unfold ValidInputs; infer_instance

/-- The sidebar advisory (source lines 50-51): a warning is shown exactly
when the occupancy rate is below 70. -/
def occupancy_warning (occupancy_rate : ℕ) : Bool :=
  occupancy_rate < 70

/-- Row lookup `df[df["Care Type"] == selected_ward].iloc[0]` (source
line 73): the first table row whose care type matches. -/
def lookup_row (i : Inputs) : Option WardProfile :=
  wardTable.find? (fun w => w.careType == i.selected_ward)

/-- The capital-cost switch for the 60-year model (source lines 79-82):
`(sqm_cost * area) / 60 / (365 * 0.9)` when the timeframe is "60 Years",
otherwise the ward's static capital cost. -/
def capital_cost_of (i : Inputs) (row : WardProfile) : ℚ :=
  if i.timeframe = "60 Years" then
    ((i.sqm_cost : ℚ) * row.areaPerBed) / 60 / (365 * (0.9 : ℚ))
  else row.capitalCost

/-- Everything the script derives for one input set (source lines 73-86). -/
structure PipelineResult where
  row : WardProfile
  timeframe_days : ℕ
  effective_nights : ℚ
  capital_cost : ℚ
  costs : CostResult
deriving DecidableEq, Repr, Inhabited

/-- The straight-line calculation section of the script (source
lines 73-86): look up the ward row, resolve the timeframe, compute
effective nights, select the capital cost, and run `calculate_costs`. -/
def runPipeline (i : Inputs) : Option PipelineResult :=
  (lookup_row i).bind fun row =>
  (get_timeframe_days i.timeframe).map fun tf_days =>
    let eff := calculate_effective_nights (i.num_nights : ℚ) (i.occupancy_rate : ℚ) tf_days
    let cap := capital_cost_of i row
    ⟨row, tf_days, eff, cap,
      calculate_costs cap row.maintenanceCost i.darwin_cost_input (i.num_beds : ℚ) eff⟩

/-- The app's top level: the occupancy advisory (emitted independently,
source lines 50-51) together with the calculation pipeline. -/
def runApp (i : Inputs) : Bool × Option PipelineResult :=
  (occupancy_warning i.occupancy_rate, runPipeline i)

/-- The numeric values shown by the summary metrics and the detailed
breakdown (source lines 92-102).  `st.metric` for estimated savings shows
`abs(savings)` (line 95). -/
structure SummaryDisplay where
  nhs_total : ℚ
  darwin_total : ℚ
  estimated_savings : ℚ
  percent : ℚ
  capital : ℚ
  maintenance : ℚ
  nhs_night : ℚ
  darwin_night : ℚ
deriving DecidableEq, Repr, Inhabited

/-- Builds the summary display values from the pipeline result (source
lines 92-102). -/
def summaryDisplay (i : Inputs) (r : PipelineResult) : SummaryDisplay :=
  ⟨r.costs.total_nhs, r.costs.total_darwin, |r.costs.savings|,
    r.costs.percent_savings, r.capital_cost, r.row.maintenanceCost,
    r.costs.nhs_night, i.darwin_cost_input⟩

/-- One data row of `report_df` (source lines 125-135). -/
structure ReportRow where
  ward_type : String
  beds : ℕ
  nights_adjusted : ℚ
  nhs_per_night : ℚ
  darwin_per_night : ℚ
  nhs_total : ℚ
  darwin_total : ℚ
  savings : ℚ
  percent_savings : ℚ
deriving DecidableEq, Repr, Inhabited

/-- The single data row of the CSV report for one input set (source
lines 125-135): raw, unformatted pipeline values. -/
def csvRowOf (i : Inputs) (r : PipelineResult) : ReportRow :=
  ⟨i.selected_ward, i.num_beds, r.effective_nights, r.costs.nhs_night,
    i.darwin_cost_input, r.costs.total_nhs, r.costs.total_darwin,
    r.costs.savings, r.costs.percent_savings⟩

/-- The correspondence asserted by the spec's round-trip property: each
numeric CSV field agrees with the corresponding value shown by the summary
display (the CSV's `Savings (£)` corresponding to the displayed
`Estimated Savings` metric). -/
def csvMatchesDisplay (row : ReportRow) (d : SummaryDisplay) : Prop :=
  row.nhs_per_night = d.nhs_night ∧
  row.darwin_per_night = d.darwin_night ∧
  row.nhs_total = d.nhs_total ∧
  row.darwin_total = d.darwin_total ∧
  row.savings = d.estimated_savings ∧
  row.percent_savings = d.percent

/-- The CSV export artifact (source lines 125-138). -/
structure Report where
  file_name : String
  mime : String
  columns : List String
  rows : List ReportRow
deriving DecidableEq, Repr, Inhabited

/-- Builds the CSV export (source lines 125-138): column names in the
order of the `report_df` constructor, one data row, downloaded as
`bed_cost_comparison_report.csv` with MIME `text/csv`. -/
def buildReport (i : Inputs) (r : PipelineResult) : Report :=
  { file_name := "bed_cost_comparison_report.csv"
  , mime := "text/csv"
  , columns := ["Ward Type", "Beds", "Nights (Adjusted)", "NHS per Night (£)",
      "Darwin per Night (£)", "NHS Total (£)", "Darwin Total (£)",
      "Savings (£)", "% Savings"]
  , rows := [csvRowOf i r] }

/-- The spec's worked scenario: General Ward, 10 beds, 30 nights, 90%
occupancy, Daily timeframe, alternative cost 80, build cost 2500. -/
def iC5 : Inputs := ⟨"General Ward", 10, 30, 90, "Daily", 80, 2500⟩

/-- The pipeline result for `iC5`, written out exactly. -/
def rC5 : PipelineResult :=
  ⟨⟨"General Ward", 80.63, 12.20, 32⟩, 1, 30, 80.63,
    ⟨92.83, 27849, 24000, 3849, 128300 / 9283⟩⟩

/-- A 60-year input set: Critical Care, 5 beds, 100% occupancy, build cost
2500. -/
def iC3 : Inputs := ⟨"Critical Care", 5, 30, 100, "60 Years", 80, 2500⟩

/-- The pipeline result for `iC3`, written out exactly
(capital cost 2500 * 40 / 60 / 328.5 = 10000/1971 ≈ 5.07). -/
def rC3 : PipelineResult :=
  ⟨⟨"Critical Care", 77.96, 5.48, 40⟩, 21900, 21900, 10000 / 1971,
    ⟨520027 / 49275, 10400540 / 9, 8760000, -68439460 / 9, -342197300 / 520027⟩⟩

/-- An input set whose Darwin cost (200) exceeds the NHS per-night cost, so
the computed savings are negative. -/
def iC6 : Inputs := ⟨"General Ward", 10, 30, 90, "Daily", 200, 2500⟩

/-- The pipeline result for `iC6`, written out exactly. -/
def rC6 : PipelineResult :=
  ⟨⟨"General Ward", 80.63, 12.20, 32⟩, 1, 30, 80.63,
    ⟨92.83, 27849, 60000, -32151, -1071700 / 9283⟩⟩

/-- An input set sitting at the extremes of the documented ranges:
Psychiatric ward, 1 bed, 1 night, 50% occupancy, 5-year timeframe, Darwin
cost 200, build cost 1500. -/
def iC9 : Inputs := ⟨"Psychiatric", 1, 1, 50, "5 Years", 200, 1500⟩

/-- The pipeline result for `iC9`, written out exactly. -/
def rC9 : PipelineResult :=
  ⟨⟨"Psychiatric", 45.68, 2.74, 30⟩, 1825, 1825 / 2, 45.68,
    ⟨48.42, 176733 / 4, 182500, -553267 / 4, -757900 / 2421⟩⟩

/-- An input set with 51% occupancy and the 5-year timeframe, whose
effective nights 1825 * 51 / 100 = 930.75 are fractional. -/
def iC10 : Inputs := ⟨"General Ward", 10, 30, 51, "5 Years", 80, 2500⟩

/-- The pipeline result for `iC10`, written out exactly. -/
def rC10 : PipelineResult :=
  ⟨⟨"General Ward", 80.63, 12.20, 32⟩, 1825, 3723 / 4, 80.63,
    ⟨92.83, 34560609 / 40, 744600, 4776609 / 40, 128300 / 9283⟩⟩

/-- The spec's advisory-warning scenario: 65% occupancy. -/
def iC8 : Inputs := ⟨"General Ward", 10, 30, 65, "Daily", 80, 2500⟩

/- ------------------------------------------------------------------ -/
/- Helper lemmas -/
/- ------------------------------------------------------------------ -/

/-- Every row of the cost table has strictly positive capital cost,
maintenance cost and area. -/
theorem wardTable_pos :
    ∀ w ∈ wardTable, 0 < w.capitalCost ∧ 0 < w.maintenanceCost ∧ 0 < w.areaPerBed := by
  intro w hw
  simp only [wardTable, List.mem_cons, List.not_mem_nil, or_false] at hw
  rcases hw with rfl | rfl | rfl | rfl | rfl | rfl | rfl | rfl | rfl | rfl | rfl | rfl <;>
    refine ⟨by norm_num, by norm_num, by norm_num⟩

/-- Any day count the timeframe resolver returns is positive. -/
theorem get_timeframe_days_pos {label : String} {d : ℕ}
    (h : get_timeframe_days label = some d) : 0 < d := by
  unfold get_timeframe_days at h
  split_ifs at h <;> simp at h <;> omega

/-- A successful pipeline run decomposes into a ward-row lookup, a
timeframe resolution, and the derived quantities built from them. -/
theorem runPipeline_some (i : Inputs) (r : PipelineResult) (h : runPipeline i = some r) :
    ∃ row d, lookup_row i = some row ∧ get_timeframe_days i.timeframe = some d ∧
      r = ⟨row, d,
        calculate_effective_nights (i.num_nights : ℚ) (i.occupancy_rate : ℚ) d,
        capital_cost_of i row,
        calculate_costs (capital_cost_of i row) row.maintenanceCost i.darwin_cost_input
          (i.num_beds : ℚ)
          (calculate_effective_nights (i.num_nights : ℚ) (i.occupancy_rate : ℚ) d)⟩ := by
  unfold runPipeline at h
  obtain ⟨row, hrow, h⟩ := Option.bind_eq_some.mp h
  obtain ⟨d, hd, h⟩ := Option.map_eq_some'.mp h
  exact ⟨row, d, hrow, hd, h.symm⟩

/- ------------------------------------------------------------------ -/
/- Claim theorems -/
/- ------------------------------------------------------------------ -/

/-- Claim C1: `calculate_costs` returns `nhs_night = cap + maint`,
`total_nhs = nhs_night * beds * nights`,
`total_darwin = darwin * beds * nights`,
`savings = total_nhs - total_darwin`, and
`percent_savings = savings / total_nhs * 100` when `total_nhs` is nonzero,
else `0`. -/
theorem calculate_costs_spec (cap maint darwin beds nights : ℚ) :
    (calculate_costs cap maint darwin beds nights).nhs_night = cap + maint ∧
    (calculate_costs cap maint darwin beds nights).total_nhs =
      (calculate_costs cap maint darwin beds nights).nhs_night * beds * nights ∧
    (calculate_costs cap maint darwin beds nights).total_darwin =
      darwin * beds * nights ∧
    (calculate_costs cap maint darwin beds nights).savings =
      (calculate_costs cap maint darwin beds nights).total_nhs -
        (calculate_costs cap maint darwin beds nights).total_darwin ∧
    (calculate_costs cap maint darwin beds nights).percent_savings =
      if (calculate_costs cap maint darwin beds nights).total_nhs = 0 then 0
      else (calculate_costs cap maint darwin beds nights).savings /
        (calculate_costs cap maint darwin beds nights).total_nhs * 100 :=
  ⟨rfl, rfl, rfl, rfl, rfl⟩

/-- Claim C2: the effective-nights calculator returns `nights` unchanged
when the timeframe is one day, and otherwise returns
`tf_days * occ_rate / 100`, independent of the user-entered nights. -/
theorem calculate_effective_nights_spec (nights nights2 occ : ℚ) (tf_days : ℕ)
    (h : tf_days ≠ 1) :
    calculate_effective_nights nights occ 1 = nights ∧
    calculate_effective_nights nights occ tf_days = (tf_days : ℚ) * (occ / 100) ∧
    calculate_effective_nights nights2 occ tf_days =
      calculate_effective_nights nights occ tf_days := by
  refine ⟨rfl, ?_, ?_⟩ <;> simp [calculate_effective_nights, h]

/-- Witness for C2 at `nights = 5`, `nights2 = 7`, `occ = 51`,
`tf_days = 1825`. -/
theorem calculate_effective_nights_spec_witness :
    (1825 : ℕ) ≠ 1 ∧
    (calculate_effective_nights 5 51 1 = 5 ∧
      calculate_effective_nights 5 51 1825 = (1825 : ℚ) * (51 / 100) ∧
      calculate_effective_nights 7 51 1825 = calculate_effective_nights 5 51 1825) :=
  ⟨by norm_num, calculate_effective_nights_spec 5 7 51 1825 (by norm_num)⟩

/-- Claim C3: when the timeframe is "60 Years" the capital cost used by
the pipeline is `sqm_cost * area / 60 / (365 * 0.9)`, independent of the
occupancy-rate input; for every other timeframe it is the ward's static
capital cost. -/
theorem capital_cost_spec (i : Inputs) (r : PipelineResult)
    (h : runPipeline i = some r) :
    (i.timeframe = "60 Years" →
      r.capital_cost = ((i.sqm_cost : ℚ) * r.row.areaPerBed) / 60 / (365 * (0.9 : ℚ))) ∧
    (i.timeframe ≠ "60 Years" → r.capital_cost = r.row.capitalCost) ∧
    ∀ occ2 r2, runPipeline { i with occupancy_rate := occ2 } = some r2 →
      r2.capital_cost = r.capital_cost := by
  obtain ⟨row, d, hrow, hd, rfl⟩ := runPipeline_some i r h
  refine ⟨?_, ?_, ?_⟩
  · intro h60
    simp [capital_cost_of, h60]
  · intro h60
    simp [capital_cost_of, h60]
  · intro occ2 r2 h2
    obtain ⟨row2, d2, hrow2, hd2, rfl⟩ := runPipeline_some _ _ h2
    have heq : lookup_row { i with occupancy_rate := occ2 } = lookup_row i := rfl
    rw [heq, hrow] at hrow2
    obtain rfl : row = row2 := Option.some.inj hrow2
    rfl

/-- Witness for C3 at the concrete 60-year input `iC3`. -/
theorem capital_cost_spec_witness :
    runPipeline iC3 = some rC3 ∧
    ((iC3.timeframe = "60 Years" →
        rC3.capital_cost =
          ((iC3.sqm_cost : ℚ) * rC3.row.areaPerBed) / 60 / (365 * (0.9 : ℚ))) ∧
      (iC3.timeframe ≠ "60 Years" → rC3.capital_cost = rC3.row.capitalCost) ∧
      ∀ occ2 r2, runPipeline { iC3 with occupancy_rate := occ2 } = some r2 →
        r2.capital_cost = rC3.capital_cost) := by
  have hp : runPipeline iC3 = some rC3 := by
    simp [runPipeline, lookup_row, wardTable, iC3, rC3, List.find?, get_timeframe_days,
      calculate_effective_nights, capital_cost_of, calculate_costs]
    norm_num
  exact ⟨hp, capital_cost_spec iC3 rC3 hp⟩

/-- Claim C4: the timeframe resolver maps exactly the five labels
Daily→1, 5 Years→1825, 10 Years→3650, 15 Years→5475, 60 Years→21900, and
fails (the dictionary lookup raises, modelled as `none`) on every other
label. -/
theorem get_timeframe_days_spec (label : String) (h : label ∉ timeframe_labels) :
    get_timeframe_days "Daily" = some 1 ∧
    get_timeframe_days "5 Years" = some 1825 ∧
    get_timeframe_days "10 Years" = some 3650 ∧
    get_timeframe_days "15 Years" = some 5475 ∧
    get_timeframe_days "60 Years" = some 21900 ∧
    get_timeframe_days label = none := by
  simp only [timeframe_labels, List.mem_cons, List.not_mem_nil, or_false, not_or] at h
  obtain ⟨h1, h2, h3, h4, h5⟩ := h
  refine ⟨by simp [get_timeframe_days], by simp [get_timeframe_days],
    by simp [get_timeframe_days], by simp [get_timeframe_days],
    by simp [get_timeframe_days], ?_⟩
  simp [get_timeframe_days, h1, h2, h3, h4, h5]

/-- Witness for C4 at the unknown label "Weekly". -/
theorem get_timeframe_days_spec_witness :
    "Weekly" ∉ timeframe_labels ∧
    (get_timeframe_days "Daily" = some 1 ∧
      get_timeframe_days "5 Years" = some 1825 ∧
      get_timeframe_days "10 Years" = some 3650 ∧
      get_timeframe_days "15 Years" = some 5475 ∧
      get_timeframe_days "60 Years" = some 21900 ∧
      get_timeframe_days "Weekly" = none) := by
  have h : "Weekly" ∉ timeframe_labels := by simp [timeframe_labels]
  exact ⟨h, get_timeframe_days_spec "Weekly" h⟩

/-- Claim C5: for General Ward, 10 beds, 30 nights, 90% occupancy, Daily
timeframe and alternative cost 80, the pipeline yields
`nhs_night = 80.63 + 12.20 = 92.83`, `total_nhs = 27849`,
`total_darwin = 24000`, `savings = 3849` and `percent_savings ≈ 13.82`. -/
theorem scenario_general_ward :
    runPipeline iC5 = some rC5 ∧
    rC5.costs.nhs_night = 80.63 + 12.20 ∧
    rC5.costs.nhs_night = 92.83 ∧
    rC5.costs.total_nhs = 27849 ∧
    rC5.costs.total_darwin = 24000 ∧
    rC5.costs.savings = 3849 ∧
    13.815 ≤ rC5.costs.percent_savings ∧
    rC5.costs.percent_savings < 13.825 := by
  refine ⟨?_, by norm_num [rC5], by norm_num [rC5], by norm_num [rC5],
    by norm_num [rC5], by norm_num [rC5], by norm_num [rC5], by norm_num [rC5]⟩
  simp [runPipeline, lookup_row, wardTable, iC5, rC5, List.find?, get_timeframe_days,
    calculate_effective_nights, capital_cost_of, calculate_costs]
  norm_num

/-- Claim C6, counterexample: at `iC6` (Darwin cost 200 on a General Ward
Daily run) the savings are negative, the summary display shows their
absolute value 32151 while the CSV holds -32151, so the CSV does not equal
the displayed values. -/
theorem csv_vs_display_counterexample :
    runPipeline iC6 = some rC6 ∧
    (csvRowOf iC6 rC6).savings = -32151 ∧
    (summaryDisplay iC6 rC6).estimated_savings = 32151 ∧
    ¬ csvMatchesDisplay (csvRowOf iC6 rC6) (summaryDisplay iC6 rC6) := by
  have h1 : (csvRowOf iC6 rC6).savings = -32151 := by norm_num [csvRowOf, rC6]
  have h2 : (summaryDisplay iC6 rC6).estimated_savings = 32151 := by
    show |rC6.costs.savings| = 32151
    rw [show rC6.costs.savings = -32151 from by norm_num [rC6]]
    rw [abs_of_nonpos (by norm_num)]
    norm_num
  refine ⟨?_, h1, h2, ?_⟩
  · simp [runPipeline, lookup_row, wardTable, iC6, rC6, List.find?, get_timeframe_days,
      calculate_effective_nights, capital_cost_of, calculate_costs]
    norm_num
  · intro hcm
    have h5 := hcm.2.2.2.2.1
    rw [h1, h2] at h5
    norm_num at h5

/-- Claim C6, amended: each CSV value that has a counterpart in the
summary display (NHS per night, Darwin per night, NHS total, Darwin total,
percent savings) equals it; the displayed Estimated Savings is the
absolute value of the CSV Savings, so the two agree exactly when savings
are nonnegative. -/
theorem csv_vs_display_match (i : Inputs) (r : PipelineResult) :
    (csvRowOf i r).nhs_per_night = (summaryDisplay i r).nhs_night ∧
    (csvRowOf i r).darwin_per_night = (summaryDisplay i r).darwin_night ∧
    (csvRowOf i r).nhs_total = (summaryDisplay i r).nhs_total ∧
    (csvRowOf i r).darwin_total = (summaryDisplay i r).darwin_total ∧
    (csvRowOf i r).percent_savings = (summaryDisplay i r).percent ∧
    (summaryDisplay i r).estimated_savings = |(csvRowOf i r).savings| ∧
    (0 ≤ (csvRowOf i r).savings →
      (csvRowOf i r).savings = (summaryDisplay i r).estimated_savings) := by
  refine ⟨rfl, rfl, rfl, rfl, rfl, rfl, ?_⟩
  intro h0
  exact (abs_of_nonneg h0).symm

/-- Witness for the amended C6 at the concrete input `iC5`. -/
theorem csv_vs_display_match_witness :
    (csvRowOf iC5 rC5).nhs_per_night = (summaryDisplay iC5 rC5).nhs_night ∧
    (csvRowOf iC5 rC5).darwin_per_night = (summaryDisplay iC5 rC5).darwin_night ∧
    (csvRowOf iC5 rC5).nhs_total = (summaryDisplay iC5 rC5).nhs_total ∧
    (csvRowOf iC5 rC5).darwin_total = (summaryDisplay iC5 rC5).darwin_total ∧
    (csvRowOf iC5 rC5).percent_savings = (summaryDisplay iC5 rC5).percent ∧
    (summaryDisplay iC5 rC5).estimated_savings = |(csvRowOf iC5 rC5).savings| ∧
    (0 ≤ (csvRowOf iC5 rC5).savings →
      (csvRowOf iC5 rC5).savings = (summaryDisplay iC5 rC5).estimated_savings) :=
  csv_vs_display_match iC5 rC5

/-- Claim C7: the CSV export has exactly one data row per calculation, the
nine columns in the exact documented order, raw (unformatted) pipeline
values, file name `bed_cost_comparison_report.csv` and MIME `text/csv`. -/
theorem report_spec (i : Inputs) (r : PipelineResult) :
    (buildReport i r).file_name = "bed_cost_comparison_report.csv" ∧
    (buildReport i r).mime = "text/csv" ∧
    (buildReport i r).columns = ["Ward Type", "Beds", "Nights (Adjusted)",
      "NHS per Night (£)", "Darwin per Night (£)", "NHS Total (£)",
      "Darwin Total (£)", "Savings (£)", "% Savings"] ∧
    (buildReport i r).rows = [⟨i.selected_ward, i.num_beds, r.effective_nights,
      r.costs.nhs_night, i.darwin_cost_input, r.costs.total_nhs,
      r.costs.total_darwin, r.costs.savings, r.costs.percent_savings⟩] :=
  ⟨rfl, rfl, rfl, rfl⟩

/-- Claim C8: the advisory warning fires exactly for occupancy rates
strictly below 70, and the pipeline result of the app run is the very same
`runPipeline` value whether or not the warning fires. -/
theorem occupancy_warning_spec (i : Inputs) :
    ((runApp i).1 = true ↔ i.occupancy_rate < 70) ∧
    (runApp i).2 = runPipeline i :=
  ⟨by simp [runApp, occupancy_warning], rfl⟩

/-- Witness for C8 at the spec's 65%-occupancy scenario `iC8`: the warning
fires and the result is the unaltered pipeline value. -/
theorem occupancy_warning_spec_witness :
    (runApp iC8).1 = true ∧ (runApp iC8).2 = runPipeline iC8 :=
  ⟨(occupancy_warning_spec iC8).1.mpr (by norm_num [iC8]),
    (occupancy_warning_spec iC8).2⟩

/-- Claim C9: for every input within the documented ranges for which the
pipeline succeeds, the total NHS cost is strictly positive, so the
percent-savings division is well-defined and the zero-denominator guard is
never taken. -/
theorem total_nhs_pos (i : Inputs) (r : PipelineResult)
    (hv : ValidInputs i) (h : runPipeline i = some r) :
    0 < r.costs.total_nhs ∧
    r.costs.percent_savings = r.costs.savings / r.costs.total_nhs * 100 := by
  obtain ⟨row, d, hrow, hd, rfl⟩ := runPipeline_some i r h
  obtain ⟨-, hbeds1, -, hnights1, -, hocc1, -, -, -, -, hsqm1, -⟩ := hv
  have hrow2 : wardTable.find? (fun w => w.careType == i.selected_ward) = some row := hrow
  obtain ⟨hcap, hmaint, harea⟩ := wardTable_pos row (List.mem_of_find?_eq_some hrow2)
  have hd0 : 0 < d := get_timeframe_days_pos hd
  have hcappos : 0 < capital_cost_of i row := by
    unfold capital_cost_of
    split_ifs
    · have hsq : (0 : ℚ) < (i.sqm_cost : ℚ) := by
        have : 0 < i.sqm_cost := by omega
        exact_mod_cast this
      exact div_pos (div_pos (mul_pos hsq harea) (by norm_num)) (by norm_num)
    · exact hcap
  have heff : 0 < calculate_effective_nights (i.num_nights : ℚ) (i.occupancy_rate : ℚ) d := by
    unfold calculate_effective_nights
    split_ifs
    · have : 0 < i.num_nights := by omega
      exact_mod_cast this
    · refine mul_pos ?_ (div_pos ?_ (by norm_num))
      · exact_mod_cast hd0
      · have : 0 < i.occupancy_rate := by omega
        exact_mod_cast this
  have hbeds : (0 : ℚ) < (i.num_beds : ℚ) := by
    have : 0 < i.num_beds := by omega
    exact_mod_cast this
  have hT : 0 < (capital_cost_of i row + row.maintenanceCost) * (i.num_beds : ℚ) *
      calculate_effective_nights (i.num_nights : ℚ) (i.occupancy_rate : ℚ) d :=
    mul_pos (mul_pos (add_pos hcappos hmaint) hbeds) heff
  refine ⟨hT, ?_⟩
  show (calculate_costs (capital_cost_of i row) row.maintenanceCost i.darwin_cost_input
      (i.num_beds : ℚ)
      (calculate_effective_nights (i.num_nights : ℚ) (i.occupancy_rate : ℚ) d)).percent_savings = _
  simp only [calculate_costs]
  rw [if_neg hT.ne']

/-- Witness for C9 at the range-extreme valid input `iC9`. -/
theorem total_nhs_pos_witness :
    ValidInputs iC9 ∧ runPipeline iC9 = some rC9 ∧
    (0 < rC9.costs.total_nhs ∧
      rC9.costs.percent_savings = rC9.costs.savings / rC9.costs.total_nhs * 100) := by
  have hv : ValidInputs iC9 := by
    simp [ValidInputs, iC9, wardTable, timeframe_labels]
    norm_num
  have hp : runPipeline iC9 = some rC9 := by
    simp [runPipeline, lookup_row, wardTable, iC9, rC9, List.find?, get_timeframe_days,
      calculate_effective_nights, capital_cost_of, calculate_costs]
    norm_num
  exact ⟨hv, hp, total_nhs_pos iC9 rC9 hv hp⟩

/-- Claim C10: at the valid input `iC10` (51% occupancy, 5-year
timeframe) the effective nights 3723/4 = 930.75 are not an integer, and
this fractional value is propagated unrounded into the total-cost
computation and the CSV column Nights (Adjusted). -/
theorem fractional_nights_propagate :
    ValidInputs iC10 ∧
    runPipeline iC10 = some rC10 ∧
    iC10.timeframe ≠ "Daily" ∧
    rC10.effective_nights = 3723 / 4 ∧
    (¬ ∃ n : ℤ, rC10.effective_nights = (n : ℚ)) ∧
    (csvRowOf iC10 rC10).nights_adjusted = rC10.effective_nights ∧
    rC10.costs.total_nhs =
      rC10.costs.nhs_night * (iC10.num_beds : ℚ) * rC10.effective_nights ∧
    rC10.costs.total_darwin =
      iC10.darwin_cost_input * (iC10.num_beds : ℚ) * rC10.effective_nights := by
  refine ⟨?_, ?_, by simp [iC10], by norm_num [rC10], ?_, rfl, ?_, ?_⟩
  · simp [ValidInputs, iC10, wardTable, timeframe_labels]
    norm_num
  · simp [runPipeline, lookup_row, wardTable, iC10, rC10, List.find?, get_timeframe_days,
      calculate_effective_nights, capital_cost_of, calculate_costs]
    norm_num
  · rintro ⟨n, hn⟩
    rw [show rC10.effective_nights = 3723 / 4 from by norm_num [rC10]] at hn
    rw [div_eq_iff (by norm_num : (4 : ℚ) ≠ 0)] at hn
    have hz : (3723 : ℤ) = n * 4 := by exact_mod_cast hn
    omega
  · norm_num [rC10, iC10]
  · norm_num [rC10, iC10]

end BedCalc
